import Mathlib

/-!
Shallow embedding of the nz_reg_test AWS CDK infrastructure declarations
(src/infrastructure/cdk). The repository contains no runtime logic: each
stack instantiates cloud resource descriptors with fixed configuration
values, wires references between stacks, and attaches tags. We embed the
construct declarations as Lean structures whose fields keep the source's
keyword-argument names, and the stack classes as build functions taking
the same cross-stack arguments as the Python constructors.
-/

namespace NzReg

/-- Embeds aws_cdk.Duration: a time span, stored in seconds. -/
structure Duration where
  toSeconds : Nat
  deriving DecidableEq, Repr

def Duration.seconds (n : Nat) : Duration := ⟨n⟩

def Duration.minutes (n : Nat) : Duration := ⟨n * 60⟩

def Duration.hours (n : Nat) : Duration := ⟨n * 3600⟩

def Duration.days (n : Nat) : Duration := ⟨n * 86400⟩

/-- Number of whole days in a Duration (used by synthesis for
day-valued template properties such as BackupRetentionPeriod). -/
def Duration.toDays (d : Duration) : Nat := d.toSeconds / 86400

/-- Embeds ec2.SubnetType. -/
inductive SubnetType where
  | PUBLIC
  | PRIVATE_WITH_EGRESS
  | PRIVATE_ISOLATED
  deriving DecidableEq, Repr

/-- Embeds ec2.SubnetConfiguration. -/
structure SubnetConfiguration where
  name : String
  subnet_type : SubnetType
  cidr_mask : Nat
  deriving DecidableEq, Repr

/-- Embeds ec2.Vpc as declared in vpc_stack.py. The stack omits the
ip_addresses argument; per the spec, synthesis (the external SDK) fills
the SDK default CIDR block 10.0.0.0/16, which we record explicitly in
the cidr_block field. -/
structure Vpc where
  vpc_name : String
  cidr_block : String
  max_azs : Nat
  subnet_configuration : List SubnetConfiguration
  enable_dns_hostnames : Bool
  enable_dns_support : Bool
  deriving DecidableEq, Repr

/-- Embeds the source argument of ec2.SecurityGroup.add_ingress_rule:
either ec2.Peer.any_ipv4() or another security group (which the Python
code passes as an object; we reference it by its declared
security_group_name to keep the structures non-recursive). -/
inductive Peer where
  | any_ipv4
  | sg (security_group_name : String)
  deriving DecidableEq, Repr

/-- One add_ingress_rule call: peer, TCP port, and description. -/
structure IngressRule where
  peer : Peer
  tcp_port : Nat
  description : String
  deriving DecidableEq, Repr

/-- Embeds ec2.SecurityGroup together with its add_ingress_rule calls. -/
structure SecurityGroup where
  description : String
  security_group_name : String
  ingress_rules : List IngressRule
  deriving DecidableEq, Repr

/-- Embeds the VpcStack class (vpc_stack.py): the VPC, the three
security groups, and the stack-scope tags. -/
structure VpcStack where
  vpc : Vpc
  alb_security_group : SecurityGroup
  ecs_security_group : SecurityGroup
  database_security_group : SecurityGroup
  tags : List (String × String)
  deriving DecidableEq, Repr

/-- VpcStack.__init__ from vpc_stack.py. -/
def VpcStack.build : VpcStack :=
  let alb_security_group : SecurityGroup :=
    { description := "Security group for Application Load Balancer"
      security_group_name := "nz-companies-alb-sg"
      ingress_rules :=
        [ { peer := Peer.any_ipv4, tcp_port := 80,
            description := "Allow HTTP from internet" },
          { peer := Peer.any_ipv4, tcp_port := 443,
            description := "Allow HTTPS from internet" } ] }
  let ecs_security_group : SecurityGroup :=
    { description := "Security group for ECS tasks"
      security_group_name := "nz-companies-ecs-sg"
      ingress_rules :=
        [ { peer := Peer.sg alb_security_group.security_group_name,
            tcp_port := 8080,
            description := "Allow traffic from ALB" } ] }
  let database_security_group : SecurityGroup :=
    { description := "Security group for RDS database"
      security_group_name := "nz-companies-db-sg"
      ingress_rules :=
        [ { peer := Peer.sg ecs_security_group.security_group_name,
            tcp_port := 5432,
            description := "Allow PostgreSQL from ECS" } ] }
  { vpc :=
      { vpc_name := "nz-companies-register-vpc"
        cidr_block := "10.0.0.0/16"
        max_azs := 3
        subnet_configuration :=
          [ { name := "Public", subnet_type := SubnetType.PUBLIC,
              cidr_mask := 24 },
            { name := "Private",
              subnet_type := SubnetType.PRIVATE_WITH_EGRESS,
              cidr_mask := 24 },
            { name := "Database",
              subnet_type := SubnetType.PRIVATE_ISOLATED,
              cidr_mask := 24 } ]
        enable_dns_hostnames := true
        enable_dns_support := true }
    alb_security_group := alb_security_group
    ecs_security_group := ecs_security_group
    database_security_group := database_security_group
    tags :=
      [ ("Project", "NZ Companies Register"),
        ("Environment", "Production"),
        ("Component", "Networking") ] }

/-- Embeds rds.AuroraPostgresEngineVersion (only VER_15_4 is used). -/
inductive AuroraPostgresEngineVersion where
  | VER_15_4
  deriving DecidableEq, Repr

/-- Embeds rds.DatabaseClusterEngine.aurora_postgres(version=...). -/
inductive DatabaseClusterEngine where
  | aurora_postgres (version : AuroraPostgresEngineVersion)
  deriving DecidableEq, Repr

/-- Modelled from the spec: synthesis (the external SDK, out of scope
for this repository) renders the aurora_postgres engine construct as
the template property Engine with value aurora-postgresql, as the
repository's own test suite asserts. -/
def DatabaseClusterEngine.engineName : DatabaseClusterEngine → String
  | .aurora_postgres _ => "aurora-postgresql"

/-- Embeds ec2.InstanceClass (only R6G is used). -/
inductive InstanceClass where
  | R6G
  deriving DecidableEq, Repr

/-- Embeds ec2.InstanceSize (only LARGE is used). -/
inductive InstanceSize where
  | LARGE
  deriving DecidableEq, Repr

/-- Embeds ec2.InstanceType.of(instance_class, instance_size). -/
structure InstanceType where
  instance_class : InstanceClass
  instance_size : InstanceSize
  deriving DecidableEq, Repr

def InstanceType.of (c : InstanceClass) (s : InstanceSize) : InstanceType :=
  ⟨c, s⟩

/-- Modelled from the spec: synthesis (the external SDK) renders
InstanceType.of(R6G, LARGE) as the DBInstanceClass string db.r6g.large,
as the repository's test suite asserts. -/
def InstanceType.dbInstanceClass : InstanceType → String
  | ⟨.R6G, .LARGE⟩ => "db.r6g.large"

/-- Embeds ec2.SubnetSelection(subnet_type=...). -/
structure SubnetSelection where
  subnet_type : SubnetType
  deriving DecidableEq, Repr

/-- Embeds rds.SubnetGroup. -/
structure SubnetGroup where
  description : String
  vpc : Vpc
  subnet_group_name : String
  vpc_subnets : SubnetSelection
  deriving DecidableEq, Repr

/-- Embeds rds.ParameterGroup. -/
structure ParameterGroup where
  engine : DatabaseClusterEngine
  description : String
  parameters : List (String × String)
  deriving DecidableEq, Repr

/-- Embeds rds.ClusterInstance.provisioned(id, ...). -/
structure ClusterInstance where
  id : String
  instance_type : InstanceType
  publicly_accessible : Bool
  auto_minor_version_upgrade : Bool
  allow_major_version_upgrade : Bool
  enable_performance_insights : Bool
  parameter_group : ParameterGroup
  deriving DecidableEq, Repr

/-- Embeds rds.BackupProps. -/
structure BackupProps where
  retention : Duration
  preferred_window : String
  deriving DecidableEq, Repr

/-- Embeds rds.DatabaseCluster as declared in database_stack.py. -/
structure DatabaseCluster where
  cluster_identifier : String
  engine : DatabaseClusterEngine
  default_database_name : String
  vpc : Vpc
  subnet_group : SubnetGroup
  parameter_group : ParameterGroup
  writer : ClusterInstance
  readers : List ClusterInstance
  backup : BackupProps
  preferred_maintenance_window : String
  storage_encrypted : Bool
  monitoring_interval : Duration
  cloudwatch_logs_exports : List String
  deletion_protection : Bool
  deriving DecidableEq, Repr

/-- Embeds dynamodb.AttributeType (only STRING is used). -/
inductive AttributeType where
  | STRING
  deriving DecidableEq, Repr

/-- Embeds dynamodb.Attribute. -/
structure Attribute where
  name : String
  type : AttributeType
  deriving DecidableEq, Repr

/-- Embeds dynamodb.BillingMode (only PAY_PER_REQUEST is used). -/
inductive BillingMode where
  | PAY_PER_REQUEST
  deriving DecidableEq, Repr

/-- Embeds dynamodb.TableEncryption (only AWS_MANAGED is used). -/
inductive TableEncryption where
  | AWS_MANAGED
  deriving DecidableEq, Repr

/-- Embeds one add_global_secondary_index call. -/
structure GlobalSecondaryIndex where
  index_name : String
  partition_key : Attribute
  sort_key : Attribute
  deriving DecidableEq, Repr

/-- Embeds dynamodb.Table as declared in database_stack.py, together
with its add_global_secondary_index call. -/
structure Table where
  table_name : String
  partition_key : Attribute
  sort_key : Attribute
  billing_mode : BillingMode
  encryption : TableEncryption
  point_in_time_recovery : Bool
  global_secondary_indexes : List GlobalSecondaryIndex
  deriving DecidableEq, Repr

/-- Embeds the DatabaseStack class (database_stack.py): subnet group,
parameter group, Aurora cluster, DynamoDB table, stack tags. The
credentials secret carries no value any claim depends on and is kept
only by name. -/
structure DatabaseStack where
  database_secret_name : String
  db_subnet_group : SubnetGroup
  db_parameter_group : ParameterGroup
  database : DatabaseCluster
  document_table : Table
  tags : List (String × String)
  deriving DecidableEq, Repr

/-- DatabaseStack.__init__ from database_stack.py, taking the VPC
object exactly as the Python constructor does. -/
def DatabaseStack.build (vpc : Vpc) : DatabaseStack :=
  let db_subnet_group : SubnetGroup :=
    { description := "Subnet group for NZ Companies Register database"
      vpc := vpc
      subnet_group_name := "nz-companies-db-subnet-group"
      vpc_subnets := { subnet_type := SubnetType.PRIVATE_ISOLATED } }
  let db_parameter_group : ParameterGroup :=
    { engine := DatabaseClusterEngine.aurora_postgres
        AuroraPostgresEngineVersion.VER_15_4
      description := "Parameter group for NZ Companies Register database"
      parameters :=
        [ ("log_statement", "all"),
          ("log_min_duration_statement", "1000"),
          ("shared_preload_libraries", "pg_stat_statements"),
          ("max_connections", "200") ] }
  { database_secret_name := "nz-companies-register/database"
    db_subnet_group := db_subnet_group
    db_parameter_group := db_parameter_group
    database :=
      { cluster_identifier := "nz-companies-register-db"
        engine := DatabaseClusterEngine.aurora_postgres
          AuroraPostgresEngineVersion.VER_15_4
        default_database_name := "nz_companies_register"
        vpc := vpc
        subnet_group := db_subnet_group
        parameter_group := db_parameter_group
        writer :=
          { id := "Writer"
            instance_type := InstanceType.of InstanceClass.R6G
              InstanceSize.LARGE
            publicly_accessible := false
            auto_minor_version_upgrade := true
            allow_major_version_upgrade := false
            enable_performance_insights := true
            parameter_group := db_parameter_group }
        readers :=
          [ { id := "Reader1"
              instance_type := InstanceType.of InstanceClass.R6G
                InstanceSize.LARGE
              publicly_accessible := false
              auto_minor_version_upgrade := true
              allow_major_version_upgrade := false
              enable_performance_insights := true
              parameter_group := db_parameter_group } ]
        backup :=
          { retention := Duration.days 30
            preferred_window := "03:00-04:00" }
        preferred_maintenance_window := "sun:04:00-sun:05:00"
        storage_encrypted := true
        monitoring_interval := Duration.seconds 60
        cloudwatch_logs_exports := ["postgresql"]
        deletion_protection := true }
    document_table :=
      { table_name := "nz-companies-register-documents"
        partition_key :=
          { name := "document_id", type := AttributeType.STRING }
        sort_key := { name := "version", type := AttributeType.STRING }
        billing_mode := BillingMode.PAY_PER_REQUEST
        encryption := TableEncryption.AWS_MANAGED
        point_in_time_recovery := true
        global_secondary_indexes :=
          [ { index_name := "CompanyIdIndex"
              partition_key :=
                { name := "company_id", type := AttributeType.STRING }
              sort_key :=
                { name := "created_at", type := AttributeType.STRING } } ] }
    tags :=
      [ ("Project", "NZ Companies Register"),
        ("Environment", "Production"),
        ("Component", "Database") ] }

/-- Embeds kms.Key. -/
structure KmsKey where
  description : String
  enable_key_rotation : Bool
  deriving DecidableEq, Repr

/-- Embeds s3.BucketEncryption (only KMS is used). -/
inductive BucketEncryption where
  | KMS
  deriving DecidableEq, Repr

/-- Embeds s3.BlockPublicAccess (only BLOCK_ALL is used). -/
inductive BlockPublicAccess where
  | BLOCK_ALL
  deriving DecidableEq, Repr

/-- Embeds s3.StorageClass (the two classes used). -/
inductive StorageClass where
  | INFREQUENT_ACCESS
  | GLACIER
  deriving DecidableEq, Repr

/-- Modelled from the spec: synthesis (the external SDK) renders the
storage classes as the template strings STANDARD_IA and GLACIER, as the
repository's test suite asserts. -/
def StorageClass.templateName : StorageClass → String
  | .INFREQUENT_ACCESS => "STANDARD_IA"
  | .GLACIER => "GLACIER"

/-- Embeds s3.Transition (transition_after in days, as the source
passes plain integers). -/
structure Transition where
  storage_class : StorageClass
  transition_after : Nat
  deriving DecidableEq, Repr

/-- Embeds s3.LifecycleRule (expiration in days where given). -/
structure LifecycleRule where
  id : String
  enabled : Bool
  transitions : List Transition
  expiration : Option Nat
  deriving DecidableEq, Repr

/-- Embeds s3.Bucket as declared in storage_stack.py. -/
structure Bucket where
  bucket_name : String
  versioned : Bool
  encryption : BucketEncryption
  encryption_key : KmsKey
  block_public_access : BlockPublicAccess
  lifecycle_rules : List LifecycleRule
  deriving DecidableEq, Repr

/-- Embeds sns.Topic as declared in storage_stack.py. -/
structure Topic where
  topic_name : String
  display_name : String
  master_key : KmsKey
  deriving DecidableEq, Repr

/-- Embeds sqs.QueueEncryption (only KMS is used). -/
inductive QueueEncryption where
  | KMS
  deriving DecidableEq, Repr

/-- Embeds sqs.Queue as declared in storage_stack.py. -/
structure Queue where
  queue_name : String
  visibility_timeout_seconds : Nat
  message_retention_period_seconds : Nat
  encryption : QueueEncryption
  encryption_master_key : KmsKey
  deriving DecidableEq, Repr

/-- Embeds the StorageStack class (storage_stack.py): KMS key, two
buckets, SNS topic, four SQS queues, stack tags. -/
structure StorageStack where
  kms_key : KmsKey
  document_bucket : Bucket
  logs_bucket : Bucket
  notification_topic : Topic
  notification_queue : Queue
  notification_dlq : Queue
  reminder_queue : Queue
  reminder_dlq : Queue
  tags : List (String × String)
  deriving DecidableEq, Repr

/-- The four queues of the storage stack, for quantified statements. -/
def StorageStack.queues (s : StorageStack) : List Queue :=
  [s.notification_queue, s.notification_dlq, s.reminder_queue, s.reminder_dlq]

/-- The two buckets of the storage stack. -/
def StorageStack.buckets (s : StorageStack) : List Bucket :=
  [s.document_bucket, s.logs_bucket]

/-- StorageStack.__init__ from storage_stack.py. Every encryption
reference is the stack's own kms_key object, exactly as the Python code
passes self.kms_key. -/
def StorageStack.build : StorageStack :=
  let kms_key : KmsKey :=
    { description := "KMS key for NZ Companies Register storage encryption"
      enable_key_rotation := true }
  { kms_key := kms_key
    document_bucket :=
      { bucket_name := "nz-companies-register-documents"
        versioned := true
        encryption := BucketEncryption.KMS
        encryption_key := kms_key
        block_public_access := BlockPublicAccess.BLOCK_ALL
        lifecycle_rules :=
          [ { id := "TransitionToIA"
              enabled := true
              transitions :=
                [ { storage_class := StorageClass.INFREQUENT_ACCESS
                    transition_after := 30 },
                  { storage_class := StorageClass.GLACIER
                    transition_after := 90 } ]
              expiration := none } ] }
    logs_bucket :=
      { bucket_name := "nz-companies-register-logs"
        versioned := false
        encryption := BucketEncryption.KMS
        encryption_key := kms_key
        block_public_access := BlockPublicAccess.BLOCK_ALL
        lifecycle_rules :=
          [ { id := "DeleteOldLogs"
              enabled := true
              transitions := []
              expiration := some 365 } ] }
    notification_topic :=
      { topic_name := "nz-companies-register-notifications"
        display_name := "NZ Companies Register Notifications"
        master_key := kms_key }
    notification_queue :=
      { queue_name := "nz-companies-register-notifications"
        visibility_timeout_seconds := 300
        message_retention_period_seconds := 1209600
        encryption := QueueEncryption.KMS
        encryption_master_key := kms_key }
    notification_dlq :=
      { queue_name := "nz-companies-register-notifications-dlq"
        visibility_timeout_seconds := 300
        message_retention_period_seconds := 1209600
        encryption := QueueEncryption.KMS
        encryption_master_key := kms_key }
    reminder_queue :=
      { queue_name := "nz-companies-register-reminders"
        visibility_timeout_seconds := 300
        message_retention_period_seconds := 1209600
        encryption := QueueEncryption.KMS
        encryption_master_key := kms_key }
    reminder_dlq :=
      { queue_name := "nz-companies-register-reminders-dlq"
        visibility_timeout_seconds := 300
        message_retention_period_seconds := 1209600
        encryption := QueueEncryption.KMS
        encryption_master_key := kms_key }
    tags :=
      [ ("Project", "NZ Companies Register"),
        ("Environment", "Production"),
        ("Component", "Storage") ] }

/-- Embeds iam.Role as declared in security_stack.py (the fields the
claims depend on: name and trust principal). -/
structure Role where
  role_name : String
  assumed_by : String
  deriving DecidableEq, Repr

/-- Embeds the SecurityStack class (security_stack.py): the two IAM
roles the compute stack references by name, and stack tags. The KMS
key, policies, secrets and SSM parameters of the stack carry no value
any claim depends on. -/
structure SecurityStack where
  ecs_task_role : Role
  ecs_execution_role : Role
  tags : List (String × String)
  deriving DecidableEq, Repr

/-- SecurityStack.__init__ from security_stack.py. -/
def SecurityStack.build : SecurityStack :=
  { ecs_task_role :=
      { role_name := "nz-companies-register-ecs-task-role"
        assumed_by := "ecs-tasks.amazonaws.com" }
    ecs_execution_role :=
      { role_name := "nz-companies-register-ecs-execution-role"
        assumed_by := "ecs-tasks.amazonaws.com" }
    tags :=
      [ ("Project", "NZ Companies Register"),
        ("Environment", "Production"),
        ("Component", "Security") ] }

/-- The role names the security stack declares. -/
def SecurityStack.declared_role_names (s : SecurityStack) : List String :=
  [s.ecs_task_role.role_name, s.ecs_execution_role.role_name]

/-- Embeds ecs.Cluster as declared in compute_stack.py. -/
structure Cluster where
  cluster_name : String
  vpc : Vpc
  enable_fargate_capacity_providers : Bool
  container_insights : Bool
  deriving DecidableEq, Repr

/-- Embeds elbv2.ApplicationLoadBalancer (the fields claims use). -/
structure ApplicationLoadBalancer where
  load_balancer_name : String
  vpc : Vpc
  internet_facing : Bool
  deriving DecidableEq, Repr

/-- Embeds ecs.FargateTaskDefinition as declared in compute_stack.py.
The Python code imports the roles with iam.Role.from_role_name, so the
reference the task definition holds is a role name; the frontend task
definition passes no task_role. -/
structure FargateTaskDefinition where
  family : String
  memory_limit_mib : Nat
  cpu : Nat
  execution_role_name : String
  task_role_name : Option String
  deriving DecidableEq, Repr

/-- Embeds ecs.FargateService (the fields claims use). -/
structure FargateService where
  service_name : String
  cluster : Cluster
  task_definition : FargateTaskDefinition
  desired_count : Nat
  assign_public_ip : Bool
  vpc_subnets : SubnetSelection
  deriving DecidableEq, Repr

/-- Embeds one scale_on_cpu_utilization or scale_on_memory_utilization
call on a scalable task count. -/
structure UtilizationScaling where
  target_utilization_percent : Nat
  scale_in_cooldown : Duration
  scale_out_cooldown : Duration
  deriving DecidableEq, Repr

/-- Embeds auto_scale_task_count together with the scaling policies
attached to it. -/
structure ScalableTaskCount where
  min_capacity : Nat
  max_capacity : Nat
  cpu_scaling : Option UtilizationScaling
  memory_scaling : Option UtilizationScaling
  deriving DecidableEq, Repr

/-- Embeds the ComputeStack class (compute_stack.py): cluster, ALB,
task definitions, services, autoscaling, the cross-stack arguments it
received, and stack tags. ECR repositories, target groups, listeners,
log groups and container definitions carry no value any claim depends
on. -/
structure ComputeStack where
  vpc : Vpc
  database : DatabaseCluster
  document_bucket : Bucket
  cluster : Cluster
  alb : ApplicationLoadBalancer
  backend_task_definition : FargateTaskDefinition
  frontend_task_definition : FargateTaskDefinition
  backend_service : FargateService
  frontend_service : FargateService
  backend_scaling : ScalableTaskCount
  frontend_scaling : ScalableTaskCount
  tags : List (String × String)
  deriving DecidableEq, Repr

/-- ComputeStack.__init__ from compute_stack.py, taking the VPC, the
database cluster and the document bucket objects exactly as the Python
constructor does. -/
def ComputeStack.build (vpc : Vpc) (database : DatabaseCluster)
    (document_bucket : Bucket) : ComputeStack :=
  let cluster : Cluster :=
    { cluster_name := "nz-companies-register-cluster"
      vpc := vpc
      enable_fargate_capacity_providers := true
      container_insights := true }
  let backend_task_definition : FargateTaskDefinition :=
    { family := "nz-companies-register-backend"
      memory_limit_mib := 2048
      cpu := 1024
      execution_role_name := "nz-companies-register-ecs-execution-role"
      task_role_name := some "nz-companies-register-ecs-task-role" }
  let frontend_task_definition : FargateTaskDefinition :=
    { family := "nz-companies-register-frontend"
      memory_limit_mib := 512
      cpu := 256
      execution_role_name := "nz-companies-register-ecs-execution-role"
      task_role_name := none }
  { vpc := vpc
    database := database
    document_bucket := document_bucket
    cluster := cluster
    alb :=
      { load_balancer_name := "nz-companies-register-alb"
        vpc := vpc
        internet_facing := true }
    backend_task_definition := backend_task_definition
    frontend_task_definition := frontend_task_definition
    backend_service :=
      { service_name := "nz-companies-register-backend"
        cluster := cluster
        task_definition := backend_task_definition
        desired_count := 2
        assign_public_ip := false
        vpc_subnets := { subnet_type := SubnetType.PRIVATE_WITH_EGRESS } }
    frontend_service :=
      { service_name := "nz-companies-register-frontend"
        cluster := cluster
        task_definition := frontend_task_definition
        desired_count := 2
        assign_public_ip := false
        vpc_subnets := { subnet_type := SubnetType.PRIVATE_WITH_EGRESS } }
    backend_scaling :=
      { min_capacity := 2
        max_capacity := 10
        cpu_scaling := some
          { target_utilization_percent := 70
            scale_in_cooldown := Duration.minutes 5
            scale_out_cooldown := Duration.minutes 5 }
        memory_scaling := some
          { target_utilization_percent := 80
            scale_in_cooldown := Duration.minutes 5
            scale_out_cooldown := Duration.minutes 5 } }
    frontend_scaling :=
      { min_capacity := 2
        max_capacity := 6
        cpu_scaling := some
          { target_utilization_percent := 70
            scale_in_cooldown := Duration.minutes 5
            scale_out_cooldown := Duration.minutes 5 }
        memory_scaling := none }
    tags :=
      [ ("Project", "NZ Companies Register"),
        ("Environment", "Production"),
        ("Component", "Compute") ] }

/-- The role names the compute stack references through
iam.Role.from_role_name in its two task definitions. -/
def ComputeStack.referenced_role_names (c : ComputeStack) : List String :=
  [c.backend_task_definition.execution_role_name]
    ++ c.backend_task_definition.task_role_name.toList
    ++ [c.frontend_task_definition.execution_role_name]
    ++ c.frontend_task_definition.task_role_name.toList

/-- The load_balancer_full_name attribute the monitoring stack reads
from the ALB object is a deploy-time attribute resolved by the external
SDK; we model it as a function of the declared ALB. No claim depends on
its value. -/
def ApplicationLoadBalancer.load_balancer_full_name
    (a : ApplicationLoadBalancer) : String :=
  a.load_balancer_name

/-- Embeds cloudwatch.ComparisonOperator (the two operators used). -/
inductive ComparisonOperator where
  | GREATER_THAN_THRESHOLD
  | LESS_THAN_THRESHOLD
  deriving DecidableEq, Repr

/-- Embeds cloudwatch.TreatMissingData (the two modes used). -/
inductive TreatMissingData where
  | NOT_BREACHING
  | BREACHING
  deriving DecidableEq, Repr

/-- Embeds cloudwatch.Metric (the namespace keyword argument is named
metric_namespace here because namespace is a Lean keyword). -/
structure Metric where
  metric_namespace : String
  metric_name : String
  dimensions_map : List (String × String)
  statistic : String
  period : Duration
  deriving DecidableEq, Repr

/-- Embeds cloudwatch.Alarm as declared in monitoring_stack.py. -/
structure Alarm where
  alarm_name : String
  alarm_description : String
  metric : Metric
  threshold : ℚ
  evaluation_periods : Nat
  comparison_operator : ComparisonOperator
  treat_missing_data : TreatMissingData
  deriving DecidableEq, Repr

/-- Embeds cloudwatch.GraphWidget (title and the metrics on each axis). -/
structure GraphWidget where
  title : String
  left : List Metric
  right : List Metric
  deriving DecidableEq, Repr

/-- Embeds the MonitoringStack class (monitoring_stack.py): the alert
topic, the alarms created by the four create_* methods in call order,
the dashboard widgets added by setup_dashboard_widgets, and stack tags. -/
structure MonitoringStack where
  alert_topic_name : String
  dashboard_name : String
  alarms : List Alarm
  widgets : List GraphWidget
  tags : List (String × String)
  deriving DecidableEq, Repr

/-- MonitoringStack.__init__ from monitoring_stack.py, taking the
compute stack object exactly as the Python constructor does. Dimension
values the source reads from the compute stack
(backend_service.service_name, cluster.cluster_name,
alb.load_balancer_full_name) are read from the same fields here;
dimension values the source hard-codes (DBClusterIdentifier,
TableName) are the same string literals here. -/
def MonitoringStack.build (compute_stack : ComputeStack) : MonitoringStack :=
  let ecsServiceDims : List (String × String) :=
    [ ("ServiceName", compute_stack.backend_service.service_name),
      ("ClusterName", compute_stack.cluster.cluster_name) ]
  let albDims : List (String × String) :=
    [ ("LoadBalancer", compute_stack.alb.load_balancer_full_name) ]
  let rdsDims : List (String × String) :=
    [ ("DBClusterIdentifier", "nz-companies-register-db") ]
  { alert_topic_name := "nz-companies-register-alerts"
    dashboard_name := "NZ-Companies-Register-Dashboard"
    alarms :=
      [ { alarm_name := "nz-companies-register-backend-high-cpu"
          alarm_description := "Backend service CPU utilization is high"
          metric :=
            { metric_namespace := "AWS/ECS"
              metric_name := "CPUUtilization"
              dimensions_map := ecsServiceDims
              statistic := "Average"
              period := Duration.minutes 5 }
          threshold := 80
          evaluation_periods := 2
          comparison_operator := ComparisonOperator.GREATER_THAN_THRESHOLD
          treat_missing_data := TreatMissingData.NOT_BREACHING },
        { alarm_name := "nz-companies-register-backend-high-memory"
          alarm_description := "Backend service memory utilization is high"
          metric :=
            { metric_namespace := "AWS/ECS"
              metric_name := "MemoryUtilization"
              dimensions_map := ecsServiceDims
              statistic := "Average"
              period := Duration.minutes 5 }
          threshold := 85
          evaluation_periods := 2
          comparison_operator := ComparisonOperator.GREATER_THAN_THRESHOLD
          treat_missing_data := TreatMissingData.NOT_BREACHING },
        { alarm_name := "nz-companies-register-backend-task-count-low"
          alarm_description := "Backend service task count is below minimum"
          metric :=
            { metric_namespace := "AWS/ECS"
              metric_name := "RunningTaskCount"
              dimensions_map := ecsServiceDims
              statistic := "Average"
              period := Duration.minutes 1 }
          threshold := 1
          evaluation_periods := 2
          comparison_operator := ComparisonOperator.LESS_THAN_THRESHOLD
          treat_missing_data := TreatMissingData.BREACHING },
        { alarm_name := "nz-companies-register-alb-high-latency"
          alarm_description := "ALB target response time is high"
          metric :=
            { metric_namespace := "AWS/ApplicationELB"
              metric_name := "TargetResponseTime"
              dimensions_map := albDims
              statistic := "Average"
              period := Duration.minutes 5 }
          threshold := 1
          evaluation_periods := 2
          comparison_operator := ComparisonOperator.GREATER_THAN_THRESHOLD
          treat_missing_data := TreatMissingData.NOT_BREACHING },
        { alarm_name := "nz-companies-register-alb-high-error-rate"
          alarm_description := "ALB 5xx error rate is high"
          metric :=
            { metric_namespace := "AWS/ApplicationELB"
              metric_name := "HTTPCode_Target_5XX_Count"
              dimensions_map := albDims
              statistic := "Sum"
              period := Duration.minutes 5 }
          threshold := 10
          evaluation_periods := 2
          comparison_operator := ComparisonOperator.GREATER_THAN_THRESHOLD
          treat_missing_data := TreatMissingData.NOT_BREACHING },
        { alarm_name := "nz-companies-register-ecs-cluster-high-cpu"
          alarm_description := "ECS cluster CPU reservation is high"
          metric :=
            { metric_namespace := "AWS/ECS"
              metric_name := "CPUReservation"
              dimensions_map :=
                [ ("ClusterName", compute_stack.cluster.cluster_name) ]
              statistic := "Average"
              period := Duration.minutes 5 }
          threshold := 80
          evaluation_periods := 2
          comparison_operator := ComparisonOperator.GREATER_THAN_THRESHOLD
          treat_missing_data := TreatMissingData.NOT_BREACHING },
        { alarm_name := "nz-companies-register-rds-high-cpu"
          alarm_description := "RDS CPU utilization is high"
          metric :=
            { metric_namespace := "AWS/RDS"
              metric_name := "CPUUtilization"
              dimensions_map := rdsDims
              statistic := "Average"
              period := Duration.minutes 5 }
          threshold := 80
          evaluation_periods := 2
          comparison_operator := ComparisonOperator.GREATER_THAN_THRESHOLD
          treat_missing_data := TreatMissingData.NOT_BREACHING },
        { alarm_name := "nz-companies-register-rds-high-connections"
          alarm_description := "RDS connection count is high"
          metric :=
            { metric_namespace := "AWS/RDS"
              metric_name := "DatabaseConnections"
              dimensions_map := rdsDims
              statistic := "Average"
              period := Duration.minutes 5 }
          threshold := 160
          evaluation_periods := 2
          comparison_operator := ComparisonOperator.GREATER_THAN_THRESHOLD
          treat_missing_data := TreatMissingData.NOT_BREACHING },
        { alarm_name := "nz-companies-register-dynamodb-throttling"
          alarm_description := "DynamoDB is experiencing throttling"
          metric :=
            { metric_namespace := "AWS/DynamoDB"
              metric_name := "ReadThrottledEvents"
              dimensions_map :=
                [ ("TableName", "nz-companies-register-documents") ]
              statistic := "Sum"
              period := Duration.minutes 5 }
          threshold := 0
          evaluation_periods := 1
          comparison_operator := ComparisonOperator.GREATER_THAN_THRESHOLD
          treat_missing_data := TreatMissingData.NOT_BREACHING },
        { alarm_name := "nz-companies-register-low-registration-rate"
          alarm_description := "Company registration rate is unusually low"
          metric :=
            { metric_namespace := "NZCompaniesRegister/Business"
              metric_name := "CompanyRegistrations"
              dimensions_map := []
              statistic := "Sum"
              period := Duration.hours 1 }
          threshold := 5
          evaluation_periods := 2
          comparison_operator := ComparisonOperator.LESS_THAN_THRESHOLD
          treat_missing_data := TreatMissingData.BREACHING },
        { alarm_name := "nz-companies-register-search-response-time-sla"
          alarm_description := "Search response time exceeds SLA"
          metric :=
            { metric_namespace := "NZCompaniesRegister/Performance"
              metric_name := "SearchResponseTime"
              dimensions_map := []
              statistic := "Average"
              period := Duration.minutes 5 }
          threshold := 500
          evaluation_periods := 2
          comparison_operator := ComparisonOperator.GREATER_THAN_THRESHOLD
          treat_missing_data := TreatMissingData.NOT_BREACHING } ]
    widgets :=
      [ { title := "Backend Service Metrics"
          left :=
            [ { metric_namespace := "AWS/ECS"
                metric_name := "CPUUtilization"
                dimensions_map := ecsServiceDims
                statistic := "Average"
                period := Duration.minutes 5 },
              { metric_namespace := "AWS/ECS"
                metric_name := "MemoryUtilization"
                dimensions_map := ecsServiceDims
                statistic := "Average"
                period := Duration.minutes 5 } ]
          right :=
            [ { metric_namespace := "AWS/ECS"
                metric_name := "RunningTaskCount"
                dimensions_map := ecsServiceDims
                statistic := "Average"
                period := Duration.minutes 1 } ] },
        { title := "ALB Metrics"
          left :=
            [ { metric_namespace := "AWS/ApplicationELB"
                metric_name := "TargetResponseTime"
                dimensions_map := albDims
                statistic := "Average"
                period := Duration.minutes 5 } ]
          right :=
            [ { metric_namespace := "AWS/ApplicationELB"
                metric_name := "RequestCount"
                dimensions_map := albDims
                statistic := "Sum"
                period := Duration.minutes 5 } ] },
        { title := "Database Metrics"
          left :=
            [ { metric_namespace := "AWS/RDS"
                metric_name := "CPUUtilization"
                dimensions_map := rdsDims
                statistic := "Average"
                period := Duration.minutes 5 } ]
          right :=
            [ { metric_namespace := "AWS/RDS"
                metric_name := "DatabaseConnections"
                dimensions_map := rdsDims
                statistic := "Average"
                period := Duration.minutes 5 } ] },
        { title := "Business Metrics"
          left :=
            [ { metric_namespace := "NZCompaniesRegister/Business"
                metric_name := "CompanyRegistrations"
                dimensions_map := []
                statistic := "Sum"
                period := Duration.hours 1 },
              { metric_namespace := "NZCompaniesRegister/Business"
                metric_name := "SearchRequests"
                dimensions_map := []
                statistic := "Sum"
                period := Duration.minutes 5 } ]
          right :=
            [ { metric_namespace := "NZCompaniesRegister/Performance"
                metric_name := "SearchResponseTime"
                dimensions_map := []
                statistic := "Average"
                period := Duration.minutes 5 } ] } ]
    tags :=
      [ ("Project", "NZ Companies Register"),
        ("Environment", "Production"),
        ("Component", "Monitoring") ] }

/-- All metrics a monitoring stack declares, over alarms and widgets. -/
def MonitoringStack.all_metrics (m : MonitoringStack) : List Metric :=
  m.alarms.map Alarm.metric
    ++ m.widgets.flatMap (fun w => w.left ++ w.right)

/-!
app.py: the stacks are instantiated in order and cross-stack references
are wired by passing the construct objects.
-/

/-- app.py: vpc_stack = VpcStack(app, ...). -/
def vpc_stack : VpcStack := VpcStack.build

/-- app.py: security_stack = SecurityStack(app, ...). -/
def security_stack : SecurityStack := SecurityStack.build

/-- app.py: database_stack = DatabaseStack(app, ..., vpc=vpc_stack.vpc). -/
def database_stack : DatabaseStack := DatabaseStack.build vpc_stack.vpc

/-- app.py: storage_stack = StorageStack(app, ...). -/
def storage_stack : StorageStack := StorageStack.build

/-- app.py: compute_stack = ComputeStack(app, ..., vpc=vpc_stack.vpc,
database=database_stack.database,
document_bucket=storage_stack.document_bucket). -/
def compute_stack : ComputeStack :=
  ComputeStack.build vpc_stack.vpc database_stack.database
    storage_stack.document_bucket

/-- app.py: monitoring_stack = MonitoringStack(app, ...,
compute_stack=compute_stack). -/
def monitoring_stack : MonitoringStack := MonitoringStack.build compute_stack

/-!
The values the test suite asserts on synthesized templates
(tests/test_database_stack.py, tests/test_storage_stack.py,
tests/test_vpc_stack.py), restricted to the properties claim C1 lists.
-/

namespace TestDatabaseStack

/-- test_aurora_cluster_created: Engine. -/
def asserted_Engine : String := "aurora-postgresql"

/-- test_aurora_cluster_created / test_backup_configuration:
BackupRetentionPeriod. -/
def asserted_BackupRetentionPeriod : Nat := 30

/-- test_backup_configuration: PreferredBackupWindow. -/
def asserted_PreferredBackupWindow : String := "03:00-04:00"

/-- test_aurora_cluster_created / test_security_configuration:
StorageEncrypted. -/
def asserted_StorageEncrypted : Bool := true

/-- test_aurora_cluster_created / test_security_configuration:
DeletionProtection. -/
def asserted_DeletionProtection : Bool := true

/-- test_database_parameter_group_created: the max_connections entry of
the Parameters map. -/
def asserted_max_connections : String := "200"

end TestDatabaseStack

namespace TestStorageStack

/-- test_sqs_queues_created / test_message_retention_configured:
MessageRetentionPeriod. -/
def asserted_MessageRetentionPeriod : Nat := 1209600

/-- test_sqs_queues_created: VisibilityTimeout. -/
def asserted_VisibilityTimeout : Nat := 300

/-- test_document_bucket_created: BucketName. -/
def asserted_document_BucketName : String := "nz-companies-register-documents"

/-- test_logs_bucket_created: BucketName. -/
def asserted_logs_BucketName : String := "nz-companies-register-logs"

/-- test_bucket_lifecycle_configured: the Transitions list of the
TransitionToIA rule, as (StorageClass, TransitionInDays) pairs. -/
def asserted_Transitions : List (String × Nat) :=
  [("STANDARD_IA", 30), ("GLACIER", 90)]

end TestStorageStack

namespace TestVpcStack

/-- test_vpc_created: CidrBlock. -/
def asserted_CidrBlock : String := "10.0.0.0/16"

/-- test_vpc_created: EnableDnsHostnames. -/
def asserted_EnableDnsHostnames : Bool := true

/-- test_vpc_created: EnableDnsSupport. -/
def asserted_EnableDnsSupport : Bool := true

end TestVpcStack

/-!
Theorems for the claims.
-/

/-- Claim C1: every property value the test suite asserts on a
synthesized stack template is the value the stack's construct
declaration sets: the database test's asserted engine, backup
retention, backup window, storage encryption, deletion protection and
max_connections match DatabaseStack; the storage test's asserted queue
retention and visibility timeout, bucket names and lifecycle
transitions match StorageStack; the VPC test's asserted CIDR block and
DNS flags match VpcStack. -/
theorem C1_test_assertions_match_declarations :
    (TestDatabaseStack.asserted_Engine
        = database_stack.database.engine.engineName
      ∧ TestDatabaseStack.asserted_BackupRetentionPeriod
        = database_stack.database.backup.retention.toDays
      ∧ TestDatabaseStack.asserted_PreferredBackupWindow
        = database_stack.database.backup.preferred_window
      ∧ TestDatabaseStack.asserted_StorageEncrypted
        = database_stack.database.storage_encrypted
      ∧ TestDatabaseStack.asserted_DeletionProtection
        = database_stack.database.deletion_protection
      ∧ database_stack.db_parameter_group.parameters.lookup "max_connections"
        = some TestDatabaseStack.asserted_max_connections)
    ∧ ((storage_stack.queues.all fun q =>
          q.message_retention_period_seconds
              == TestStorageStack.asserted_MessageRetentionPeriod
            && q.visibility_timeout_seconds
              == TestStorageStack.asserted_VisibilityTimeout) = true
      ∧ TestStorageStack.asserted_document_BucketName
        = storage_stack.document_bucket.bucket_name
      ∧ TestStorageStack.asserted_logs_BucketName
        = storage_stack.logs_bucket.bucket_name
      ∧ ((storage_stack.document_bucket.lifecycle_rules.flatMap
            LifecycleRule.transitions).map fun t =>
              (t.storage_class.templateName, t.transition_after))
        = TestStorageStack.asserted_Transitions)
    ∧ (TestVpcStack.asserted_CidrBlock = vpc_stack.vpc.cidr_block
      ∧ TestVpcStack.asserted_EnableDnsHostnames
        = vpc_stack.vpc.enable_dns_hostnames
      ∧ TestVpcStack.asserted_EnableDnsSupport
        = vpc_stack.vpc.enable_dns_support) := by
  decide

/-- Claim C2: every alarm and dashboard widget metric in the monitoring
stack that identifies a resource through a DBClusterIdentifier,
TableName, ServiceName or ClusterName dimension uses exactly the name
that resource is declared with: the declared cluster identifier of
DatabaseStack's Aurora cluster, the declared table name of its DynamoDB
table, and the service and cluster names declared in ComputeStack. -/
theorem C2_monitoring_dimensions_match_declared_names :
    (monitoring_stack.all_metrics.all fun m =>
      m.dimensions_map.all fun d =>
        (d.1 != "DBClusterIdentifier"
          || d.2 == database_stack.database.cluster_identifier)
        && (d.1 != "TableName"
          || d.2 == database_stack.document_table.table_name)
        && (d.1 != "ServiceName"
          || d.2 == compute_stack.backend_service.service_name)
        && (d.1 != "ClusterName"
          || d.2 == compute_stack.cluster.cluster_name)) = true
    ∧ (monitoring_stack.all_metrics.all fun m =>
        m.metric_namespace != "AWS/RDS"
          || m.dimensions_map.contains
            ("DBClusterIdentifier",
              database_stack.database.cluster_identifier)) = true
    ∧ (monitoring_stack.all_metrics.all fun m =>
        m.metric_namespace != "AWS/DynamoDB"
          || m.dimensions_map.contains
            ("TableName", database_stack.document_table.table_name)) = true := by
  decide

/-- Claim C3: the database stack declares the Aurora cluster with
db.r6g.large writer and reader instances, 30-day backup retention with
window 03:00-04:00, storage encryption, deletion protection, and
non-public instances; and the DynamoDB table with partition key
document_id, sort key version, AWS-managed encryption, pay-per-request
billing, and point-in-time recovery. -/
theorem C3_database_stack_declarations :
    database_stack.database.writer.instance_type
      = InstanceType.of InstanceClass.R6G InstanceSize.LARGE
    ∧ database_stack.database.writer.instance_type.dbInstanceClass
      = "db.r6g.large"
    ∧ (database_stack.database.readers.all fun r =>
        r.instance_type
          == InstanceType.of InstanceClass.R6G InstanceSize.LARGE) = true
    ∧ database_stack.database.backup.retention = Duration.days 30
    ∧ database_stack.database.backup.retention.toDays = 30
    ∧ database_stack.database.backup.preferred_window = "03:00-04:00"
    ∧ database_stack.database.storage_encrypted = true
    ∧ database_stack.database.deletion_protection = true
    ∧ database_stack.database.writer.publicly_accessible = false
    ∧ (database_stack.database.readers.all fun r =>
        r.publicly_accessible == false) = true
    ∧ database_stack.document_table.partition_key
      = { name := "document_id", type := AttributeType.STRING }
    ∧ database_stack.document_table.sort_key
      = { name := "version", type := AttributeType.STRING }
    ∧ database_stack.document_table.encryption = TableEncryption.AWS_MANAGED
    ∧ database_stack.document_table.billing_mode
      = BillingMode.PAY_PER_REQUEST
    ∧ database_stack.document_table.point_in_time_recovery = true := by
  decide

/-- Claim C4: the security stack declares the two IAM role names and
the compute stack's task definitions reference exactly those names:
every role name referenced in the compute stack is declared in the
security stack, and both declared names are referenced. -/
theorem C4_role_names_agree :
    security_stack.ecs_task_role.role_name
      = "nz-companies-register-ecs-task-role"
    ∧ security_stack.ecs_execution_role.role_name
      = "nz-companies-register-ecs-execution-role"
    ∧ compute_stack.backend_task_definition.execution_role_name
      = security_stack.ecs_execution_role.role_name
    ∧ compute_stack.backend_task_definition.task_role_name
      = some security_stack.ecs_task_role.role_name
    ∧ compute_stack.frontend_task_definition.execution_role_name
      = security_stack.ecs_execution_role.role_name
    ∧ (compute_stack.referenced_role_names.all fun n =>
        security_stack.declared_role_names.contains n) = true
    ∧ (security_stack.declared_role_names.all fun n =>
        compute_stack.referenced_role_names.contains n) = true := by
  decide

/-- Claim C5: every bucket, queue and topic in the storage stack is
encrypted with the stack's single KMS key, which has rotation enabled;
both buckets block all public access; the document bucket transitions
to infrequent access after 30 days and Glacier after 90, the logs
bucket expires objects after 365 days; and all four queues retain
messages 1209600 seconds with a 300-second visibility timeout. -/
theorem C5_storage_stack_encryption_and_lifecycle :
    storage_stack.kms_key.enable_key_rotation = true
    ∧ (storage_stack.buckets.all fun b =>
        b.encryption == BucketEncryption.KMS
          && b.encryption_key == storage_stack.kms_key
          && b.block_public_access == BlockPublicAccess.BLOCK_ALL) = true
    ∧ storage_stack.notification_topic.master_key = storage_stack.kms_key
    ∧ (storage_stack.queues.all fun q =>
        q.encryption == QueueEncryption.KMS
          && q.encryption_master_key == storage_stack.kms_key
          && q.message_retention_period_seconds == 1209600
          && q.visibility_timeout_seconds == 300) = true
    ∧ storage_stack.document_bucket.lifecycle_rules.map
        LifecycleRule.transitions
      = [[ { storage_class := StorageClass.INFREQUENT_ACCESS,
             transition_after := 30 },
           { storage_class := StorageClass.GLACIER,
             transition_after := 90 } ]]
    ∧ storage_stack.logs_bucket.lifecycle_rules.map LifecycleRule.expiration
      = [some 365] := by
  decide

/-- Claim C6: the app wires cross-stack references by passing construct
objects: the VPC constructed in VpcStack is the vpc of DatabaseStack
(whose subnet group selects that VPC's PRIVATE_ISOLATED subnets) and of
ComputeStack, and the database cluster and document bucket objects from
DatabaseStack and StorageStack are the ones held by ComputeStack. -/
theorem C6_cross_stack_wiring :
    database_stack.database.vpc = vpc_stack.vpc
    ∧ database_stack.db_subnet_group.vpc = vpc_stack.vpc
    ∧ database_stack.db_subnet_group.vpc_subnets.subnet_type
      = SubnetType.PRIVATE_ISOLATED
    ∧ compute_stack.vpc = vpc_stack.vpc
    ∧ compute_stack.cluster.vpc = vpc_stack.vpc
    ∧ compute_stack.database = database_stack.database
    ∧ compute_stack.document_bucket = storage_stack.document_bucket := by
  decide

/-- Claim C7: the compute stack declares autoscaling with fixed
thresholds: backend between 2 and 10 tasks on 70 percent CPU and 80
percent memory targets with 5-minute cooldowns, frontend between 2 and
6 tasks on 70 percent CPU, and both services with desired count 2. -/
theorem C7_autoscaling_thresholds :
    compute_stack.backend_scaling.min_capacity = 2
    ∧ compute_stack.backend_scaling.max_capacity = 10
    ∧ compute_stack.backend_scaling.cpu_scaling
      = some { target_utilization_percent := 70
               scale_in_cooldown := Duration.minutes 5
               scale_out_cooldown := Duration.minutes 5 }
    ∧ compute_stack.backend_scaling.memory_scaling
      = some { target_utilization_percent := 80
               scale_in_cooldown := Duration.minutes 5
               scale_out_cooldown := Duration.minutes 5 }
    ∧ compute_stack.frontend_scaling.min_capacity = 2
    ∧ compute_stack.frontend_scaling.max_capacity = 6
    ∧ compute_stack.frontend_scaling.cpu_scaling.map
        UtilizationScaling.target_utilization_percent = some 70
    ∧ compute_stack.backend_service.desired_count = 2
    ∧ compute_stack.frontend_service.desired_count = 2 := by
  decide

/-- Claim C8: every one of the six stacks attaches at stack scope
exactly the tags Project=NZ Companies Register, Environment=Production,
and its own Component tag (Networking, Security, Database, Storage,
Compute, Monitoring respectively). -/
theorem C8_stack_tags :
    vpc_stack.tags
      = [ ("Project", "NZ Companies Register"),
          ("Environment", "Production"), ("Component", "Networking") ]
    ∧ security_stack.tags
      = [ ("Project", "NZ Companies Register"),
          ("Environment", "Production"), ("Component", "Security") ]
    ∧ database_stack.tags
      = [ ("Project", "NZ Companies Register"),
          ("Environment", "Production"), ("Component", "Database") ]
    ∧ storage_stack.tags
      = [ ("Project", "NZ Companies Register"),
          ("Environment", "Production"), ("Component", "Storage") ]
    ∧ compute_stack.tags
      = [ ("Project", "NZ Companies Register"),
          ("Environment", "Production"), ("Component", "Compute") ]
    ∧ monitoring_stack.tags
      = [ ("Project", "NZ Companies Register"),
          ("Environment", "Production"), ("Component", "Monitoring") ] := by
  decide

/-- Reads a decimal numeral from a string (the declared parameter
values are strings). Defined by structural recursion over the
character list so that it reduces in the kernel, unlike
String.toNat?, which is defined by well-founded recursion. -/
def parse_nat (s : String) : Option Nat :=
  s.data.foldl
    (fun acc c =>
      acc.bind fun n =>
        if c.isDigit then some (n * 10 + (c.toNat - 48)) else none)
    (some 0)

/-- Claim C9: the RDS high-connections alarm threshold 160 declared in
the monitoring stack equals exactly 80 percent of the max_connections
value 200 declared in the database stack's parameter group. -/
theorem C9_connection_threshold_is_80_percent :
    (monitoring_stack.alarms.find? fun a =>
        a.alarm_name == "nz-companies-register-rds-high-connections").map
      Alarm.threshold = some 160
    ∧ (database_stack.db_parameter_group.parameters.lookup
        "max_connections").bind parse_nat = some 200
    ∧ (160 : Nat) = 80 * 200 / 100 := by
  decide

/-!
Security-group reachability graph for claim C10, built from the
ingress rules declared in vpc_stack.py. Nodes are the internet (the
any_ipv4 peer) and the three declared security groups.
-/

/-- Nodes of the declared security-group graph. -/
inductive SGNode where
  | internet
  | alb
  | ecs
  | db
  deriving DecidableEq, Repr, Fintype

/-- The node an ingress-rule peer denotes, identifying each declared
security group by its declared security_group_name. -/
def peer_node : Peer → Option SGNode
  | Peer.any_ipv4 => some SGNode.internet
  | Peer.sg n =>
    if n == vpc_stack.alb_security_group.security_group_name then
      some SGNode.alb
    else if n == vpc_stack.ecs_security_group.security_group_name then
      some SGNode.ecs
    else if n == vpc_stack.database_security_group.security_group_name then
      some SGNode.db
    else none

/-- The edges a security group's ingress rules contribute: one edge
from each rule's source peer into the group itself. -/
def sg_ingress_edges (dst : SGNode) (sg : SecurityGroup) :
    List (SGNode × SGNode) :=
  sg.ingress_rules.filterMap fun r => (peer_node r.peer).map fun s => (s, dst)

/-- All edges of the declared security-group graph of the VPC stack. -/
def ingress_edges : List (SGNode × SGNode) :=
  sg_ingress_edges SGNode.alb vpc_stack.alb_security_group
    ++ sg_ingress_edges SGNode.ecs vpc_stack.ecs_security_group
    ++ sg_ingress_edges SGNode.db vpc_stack.database_security_group

/-- Whether some declared ingress rule lets traffic flow from x to y. -/
def allows (x y : SGNode) : Bool := ingress_edges.contains (x, y)

/-- A path in the declared security-group graph: consecutive nodes are
related by allows. -/
def isPath : List SGNode → Bool
  | [] => true
  | [_] => true
  | x :: y :: rest => allows x y && isPath (y :: rest)

/-- The only node with a declared ingress edge into the database
security group is the ECS security group. -/
lemma allows_into_db (x : SGNode) (h : allows x SGNode.db = true) :
    x = SGNode.ecs := by
  cases x <;> revert h <;> decide

/-- The only node with a declared ingress edge into the ECS security
group is the ALB security group. -/
lemma allows_into_ecs (x : SGNode) (h : allows x SGNode.ecs = true) :
    x = SGNode.alb := by
  cases x <;> revert h <;> decide

/-- The internet's only declared outgoing edges lead to the ALB
security group. -/
lemma allows_from_internet (y : SGNode)
    (h : allows SGNode.internet y = true) : y = SGNode.alb := by
  cases y <;> revert h <;> decide

/-- The ALB security group's only declared outgoing edge leads to the
ECS security group. -/
lemma allows_from_alb (y : SGNode) (h : allows SGNode.alb y = true) :
    y = SGNode.ecs := by
  cases y <;> revert h <;> decide

/-- Claim C10: the database security group's only ingress rule allows
TCP 5432 from the ECS security group, the ECS security group's only
ingress rule allows TCP 8080 from the ALB security group, only the ALB
security group has any-IPv4 ingress rules (TCP 80 and 443), and every
declared path from the internet to the database security group passes
through both the ALB and the ECS security groups. -/
theorem C10_no_internet_path_bypasses_alb_and_ecs :
    vpc_stack.database_security_group.ingress_rules
      = [ { peer := Peer.sg "nz-companies-ecs-sg", tcp_port := 5432,
            description := "Allow PostgreSQL from ECS" } ]
    ∧ vpc_stack.ecs_security_group.ingress_rules
      = [ { peer := Peer.sg "nz-companies-alb-sg", tcp_port := 8080,
            description := "Allow traffic from ALB" } ]
    ∧ vpc_stack.alb_security_group.ingress_rules.map
        (fun r => (r.peer, r.tcp_port))
      = [(Peer.any_ipv4, 80), (Peer.any_ipv4, 443)]
    ∧ (vpc_stack.ecs_security_group.ingress_rules ++
        vpc_stack.database_security_group.ingress_rules).all
        (fun r => r.peer != Peer.any_ipv4) = true
    ∧ (∀ p : List SGNode, isPath p = true →
        p.head? = some SGNode.internet → p.getLast? = some SGNode.db →
        SGNode.alb ∈ p ∧ SGNode.ecs ∈ p) := by
  refine ⟨by decide, by decide, by decide, by decide, ?_⟩
  intro p hp hhead hlast
  match p with
  | [] => simp at hhead
  | [x] =>
    simp at hhead hlast
    rw [hhead] at hlast
    exact absurd hlast (by decide)
  | [x, y] =>
    simp [List.head?] at hhead
    simp [List.getLast?] at hlast
    subst hhead
    simp [isPath] at hp
    have hy := allows_from_internet y hp
    rw [hy] at hlast
    exact absurd hlast (by decide)
  | x :: y :: z :: rest =>
    simp [List.head?] at hhead
    subst hhead
    simp only [isPath, Bool.and_eq_true] at hp
    have hy := allows_from_internet y hp.1
    have hz := allows_from_alb z (hy ▸ hp.2.1)
    subst hy
    subst hz
    exact ⟨by simp, by simp⟩

/-- Witness for C10: the concrete declared path internet → ALB → ECS →
database satisfies the hypotheses, and indeed contains both the ALB and
the ECS security groups. -/
theorem C10_witness :
    SGNode.alb ∈ [SGNode.internet, SGNode.alb, SGNode.ecs, SGNode.db]
    ∧ SGNode.ecs ∈ [SGNode.internet, SGNode.alb, SGNode.ecs, SGNode.db] :=
  C10_no_internet_path_bypasses_alb_and_ecs.2.2.2.2
    [SGNode.internet, SGNode.alb, SGNode.ecs, SGNode.db]
    (by decide) (by decide) (by decide)

end NzReg
